import Mathlib

/-!
Verification of the Decky-Loader-For-Windows build orchestrator
(`decky_builder.py`) against its natural-language specification.

The single source file is shallowly embedded:
* the filesystem is a map from paths (lists of components) to optional nodes;
* the `shutil` / `os` primitives used by the script become total functions
  on that map (the script's removal helpers pass `ignore_errors=True`, and
  directory creation is create-if-absent, so the embedded operations are
  the success-domain semantics of the Python calls);
* every external process (git, npm, pnpm, pyinstaller, msiexec, registry
  and shortcut APIs) is an opaque collaborator, exactly as the spec
  declares; its outcome is drawn from an environment record `Env`;
* raised exceptions become an `Option String` error component threaded
  through the stage sequence, and stage entry into an external call is
  recorded in an event trace so that "was never attempted" claims are
  directly statable.
-/

namespace Decky

/-- A filesystem node: a file with contents, or a directory. -/
inductive Node
  | file (content : String)
  | dir
deriving DecidableEq, Repr

/-- A path, as a list of components from the filesystem root. -/
abbrev Path := List String

/-- A filesystem: what is stored at each path, if anything. -/
abbrev FS := Path → Option Node

/-- Boolean path prefix test (used to delimit the subtree of a directory). -/
def isPre : Path → Path → Bool
  | [], _ => true
  | _ :: _, [] => false
  | a :: as, b :: bs => a == b && isPre as bs

theorem isPre_refl (p : Path) : isPre p p = true := by
  induction p with
  | nil => rfl
  | cons a as ih => simp [isPre, ih]

theorem isPre_append (p r : Path) : isPre p (p ++ r) = true := by
  induction p with
  | nil => rfl
  | cons a as ih => simp [isPre, ih]

/-- `shutil.rmtree(p)`: the whole subtree rooted at `p` is removed. -/
def rmtree (p : Path) (fs : FS) : FS :=
  fun q => if isPre p q then none else fs q

/-- `os.makedirs(p, exist_ok=True)` / guarded `Path.mkdir(parents=True)`:
every prefix of `p` becomes a directory if nothing is stored there yet;
existing entries are kept. -/
def makedirs (p : Path) (fs : FS) : FS :=
  fun q => if isPre q p then some ((fs q).getD .dir) else fs q

/-- `shutil.copytree(src, dst, dirs_exist_ok=True)`: every entry present
under `src` is copied to the corresponding path under `dst`, overwriting;
entries under `dst` with no counterpart under `src` are kept. -/
def copytree (src dst : Path) (fs : FS) : FS :=
  fun q => if isPre dst q then
      match fs (src ++ q.drop dst.length) with
      | some n => some n
      | none => fs q
    else fs q

/-- `shutil.copy2(src, dst)`: the entry at `src` is copied to `dst`. -/
def copy2 (src dst : Path) (fs : FS) : FS :=
  fun q => if q = dst then
      match fs src with
      | some n => some n
      | none => fs q
    else fs q

/-- `open(p, "w"); f.write(c)`: a file with content `c` appears at `p`. -/
def writeFileFS (p : Path) (c : String) (fs : FS) : FS :=
  fun q => if q = p then some (.file c) else fs q

/-- The cloned repository's tree `sub` is planted below `p`. -/
def graft (p : Path) (sub : FS) (fs : FS) : FS :=
  fun q => if isPre p q then sub (q.drop p.length) else fs q

/-!  Pointwise analysis of staging primitives.

Each staging primitive, looked at from one fixed path `q`, acts on the
single cell `fs q` in one of four ways; composing stage operations
therefore composes these pointwise actions, which is how idempotence of
the staging stages is proved below. -/

/-- The action a staging primitive has on one fixed filesystem cell. -/
inductive PtOp
  | ident
  | ensure
  | copyv (a : Option Node)
  | remove

/-- Apply a pointwise action to a cell. -/
def PtOp.app : PtOp → Option Node → Option Node
  | .ident, v => v
  | .ensure, v => some (v.getD .dir)
  | .copyv a, v =>
      match a with
      | some n => some n
      | none => v
  | .remove, _ => none

/-- Run a list of pointwise actions over a cell, first action first. -/
def runOps (l : List PtOp) (v : Option Node) : Option Node :=
  l.foldl (fun v op => op.app v) v

theorem runOps_nil (v : Option Node) : runOps [] v = v := rfl

theorem runOps_cons (op : PtOp) (l : List PtOp) (v : Option Node) :
    runOps (op :: l) v = runOps l (op.app v) := rfl

theorem runOps_concat (l : List PtOp) (op : PtOp) (v : Option Node) :
    runOps (l ++ [op]) v = op.app (runOps l v) := by
  simp [runOps, List.foldl_append]

/-- If a chain of pointwise actions can yield an empty cell, the chain is
the identity everywhere or ends by emptying the cell. -/
theorem runOps_none_cases (l : List PtOp) :
    ∀ v, runOps l v = none → ∀ w, runOps l w = w ∨ runOps l w = none := by
  induction l using List.reverseRecOn with
  | nil => intro v _ w; left; rfl
  | append_singleton l op ih =>
    intro v h w
    rw [runOps_concat] at h ⊢
    cases op with
    | ident =>
      simp [PtOp.app] at h ⊢
      exact ih v h w
    | ensure => simp [PtOp.app] at h
    | copyv a =>
      cases a with
      | some n => simp [PtOp.app] at h
      | none =>
        simp [PtOp.app] at h ⊢
        exact ih v h w
    | remove => right; rfl

/-- A chain of pointwise staging actions is idempotent. -/
theorem runOps_idem (l : List PtOp) (v : Option Node) :
    runOps l (runOps l v) = runOps l v := by
  induction l using List.reverseRecOn generalizing v with
  | nil => rfl
  | append_singleton l op ih =>
    simp only [runOps_concat]
    cases op with
    | ident => simp [PtOp.app, ih]
    | ensure =>
      cases h : runOps l v with
      | none =>
        have hcases := runOps_none_cases l v h (some Node.dir)
        have e0 : PtOp.ensure.app none = some Node.dir := rfl
        rw [e0]
        rcases hcases with h1 | h1 <;> rw [h1] <;> rfl
      | some x =>
        have hx : runOps l (some x) = some x := by
          have h2 := ih v
          rwa [h] at h2
        have e1 : PtOp.ensure.app (some x) = some x := rfl
        rw [e1, hx]
        exact e1
    | copyv a =>
      cases a with
      | some n => simp [PtOp.app]
      | none => simp [PtOp.app, ih]
    | remove => simp [PtOp.app]

/-- One staging primitive, as used by the setup / staging stages. -/
inductive FsOp
  | mk (p : Path)
  | ct (src dst : Path)
  | cp (src dst : Path)
  | rm (p : Path)

/-- Interpret a staging primitive as a filesystem operation. -/
def FsOp.apply : FsOp → FS → FS
  | .mk p, fs => makedirs p fs
  | .ct s d, fs => copytree s d fs
  | .cp s d, fs => copy2 s d fs
  | .rm p, fs => rmtree p fs

/-- Run a list of staging primitives, first operation first. -/
def applyAll (l : List FsOp) (fs : FS) : FS :=
  l.foldl (fun fs op => op.apply fs) fs

theorem applyAll_nil (fs : FS) : applyAll [] fs = fs := rfl

theorem applyAll_cons (op : FsOp) (l : List FsOp) (fs : FS) :
    applyAll (op :: l) fs = applyAll l (op.apply fs) := rfl

/-- The pointwise action a staging primitive has at path `q`, reading any
copy source out of the current filesystem `fs`. -/
def FsOp.pt : FsOp → FS → Path → PtOp
  | .mk p, _, q => if isPre q p then .ensure else .ident
  | .ct s d, fs, q => if isPre d q then .copyv (fs (s ++ q.drop d.length)) else .ident
  | .cp s d, fs, q => if q = d then .copyv (fs s) else .ident
  | .rm p, _, q => if isPre p q then .remove else .ident

theorem FsOp.apply_pt (op : FsOp) (fs : FS) (q : Path) :
    op.apply fs q = (op.pt fs q).app (fs q) := by
  cases op with
  | mk p =>
    simp only [FsOp.apply, FsOp.pt, makedirs]
    split <;> simp [PtOp.app]
  | ct s d =>
    simp only [FsOp.apply, FsOp.pt, copytree]
    split <;> simp [PtOp.app]
  | cp s d =>
    simp only [FsOp.apply, FsOp.pt, copy2]
    split <;> simp [PtOp.app]
  | rm p =>
    simp only [FsOp.apply, FsOp.pt, rmtree]
    split <;> simp [PtOp.app]

/-- The source cells a staging primitive reads to determine its action at `q`. -/
def FsOp.readSet : FsOp → Path → List Path
  | .ct s d, q => if isPre d q then [s ++ q.drop d.length] else []
  | .cp s d, q => if q = d then [s] else []
  | .mk _, _ => []
  | .rm _, _ => []

theorem FsOp.pt_congr (op : FsOp) (fs fs' : FS) (q : Path)
    (h : ∀ r ∈ op.readSet q, fs r = fs' r) : op.pt fs q = op.pt fs' q := by
  cases op with
  | mk p => rfl
  | ct s d =>
    simp only [FsOp.pt]
    split
    · rename_i hd
      have := h (s ++ q.drop d.length) (by simp [FsOp.readSet, hd])
      rw [this]
    · rfl
  | cp s d =>
    simp only [FsOp.pt]
    split
    · rename_i hd
      have := h s (by simp [FsOp.readSet, hd])
      rw [this]
    · rfl
  | rm p => rfl

/-- The list of pointwise actions exercised at `q` by a primitive list,
with each copy source read at the moment its primitive runs. -/
def ptsAlong : List FsOp → FS → Path → List PtOp
  | [], _, _ => []
  | op :: l, fs, q => op.pt fs q :: ptsAlong l (op.apply fs) q

theorem applyAll_eq_runOps (l : List FsOp) (fs : FS) (q : Path) :
    applyAll l fs q = runOps (ptsAlong l fs q) (fs q) := by
  induction l generalizing fs with
  | nil => rfl
  | cons op l ih =>
    rw [applyAll_cons, ptsAlong, runOps_cons, ih, FsOp.apply_pt]

/-- A cell no primitive of the list ever modifies. -/
def Untouched (l : List FsOp) (r : Path) : Prop :=
  ∀ op ∈ l, ∀ fs : FS, op.apply fs r = fs r

theorem untouched_of_cons {op : FsOp} {l : List FsOp} {r : Path}
    (h : Untouched (op :: l) r) : Untouched l r :=
  fun op' hop' fs => h op' (List.mem_cons_of_mem op hop') fs

theorem applyAll_untouched (l : List FsOp) (fs : FS) (r : Path)
    (h : Untouched l r) : applyAll l fs r = fs r := by
  induction l generalizing fs with
  | nil => rfl
  | cons op l ih =>
    rw [applyAll_cons, ih _ (untouched_of_cons h)]
    exact h op (List.mem_cons_self op l) fs

/-- Every cell any primitive of the list reads is a cell no primitive of
the list writes: the staging list draws only on pristine sources. -/
def ReadsStable (l : List FsOp) : Prop :=
  ∀ op ∈ l, ∀ q : Path, ∀ r ∈ op.readSet q, Untouched l r

theorem ptsAlong_congr (l : List FsOp) (q : Path) :
    ∀ g fs : FS,
      (∀ op ∈ l, ∀ r ∈ op.readSet q, g r = fs r ∧ Untouched l r) →
      ptsAlong l g q = ptsAlong l fs q := by
  induction l with
  | nil => intro g fs _; rfl
  | cons op l ih =>
    intro g fs h
    have hop := fun r hr => h op (List.mem_cons_self op l) r hr
    have hhead : op.pt g q = op.pt fs q :=
      FsOp.pt_congr op g fs q (fun r hr => (hop r hr).1)
    rw [ptsAlong, ptsAlong, hhead]
    congr 1
    apply ih
    intro op' hop' r hr
    have h' := h op' (List.mem_cons_of_mem op hop') r hr
    constructor
    · have hu := h'.2 op (List.mem_cons_self op l)
      rw [hu g, hu fs]
      exact h'.1
    · exact untouched_of_cons h'.2

/-- Master idempotence result: a staging list whose reads are all pristine
is idempotent as a filesystem transformer. -/
theorem applyAll_idem (l : List FsOp) (hR : ReadsStable l) (fs : FS) :
    applyAll l (applyAll l fs) = applyAll l fs := by
  funext q
  rw [applyAll_eq_runOps, applyAll_eq_runOps]
  have hpts : ptsAlong l (applyAll l fs) q = ptsAlong l fs q := by
    apply ptsAlong_congr
    intro op hop r hr
    have hu : Untouched l r := hR op hop q r hr
    exact ⟨applyAll_untouched l fs r hu, hu⟩
  rw [hpts, runOps_idem]

/-!  Workspace layout (decky_builder.py:12-32).

`root_dir` is the directory holding the script, `Path.home()` is the
per-user home; both are fixed for a run, so they are embedded as the
distinct symbolic roots `"root"` and `"home"`. -/

def rootDir : Path := ["root"]
def appDir : Path := ["root", "app"]
def srcDir : Path := ["root", "src"]
def distDir : Path := ["root", "dist"]
def homebrewDir : Path := ["root", "dist", "homebrew"]
def userHome : Path := ["home"]
def userHomebrewDir : Path := ["home", "homebrew"]
def servicesDir : Path := ["home", "homebrew", "services"]
def logsDir : Path := ["home", "homebrew", "logs"]

/-- The fixed runtime subtree set (decky_builder.py:25-32). -/
def homebrewFolders : List String :=
  ["data", "logs", "plugins", "services", "settings", "themes"]

/-- `setup_directories` (decky_builder.py:96-109): remove the fetch root,
the staging-source root and the staging mirror, then recreate the latter
two.  The source guards each removal with an existence test and performs
it through `safe_remove_directory`; on a filesystem where an absent
directory has no contents the guarded removal coincides with `rmtree`
(lemma `rmtree_absent_noop` below), and this embedding works in the
failure-free removal environment (lemma `safe_remove_directory_ideal`
below). -/
def setup_directories_list : List FsOp :=
  [.rm appDir, .rm srcDir, .rm homebrewDir, .mk srcDir, .mk homebrewDir]

def setup_directories_fs (fs : FS) : FS := applyAll setup_directories_list fs

/-- `setup_homebrew` (decky_builder.py:111-126): create the staging dist
directory, then for the staging root and the per-user root create the
root and each of the six runtime subtrees if absent.  The source's loop
over `homebrew_folders` is unrolled here; the order is the loop order. -/
def setup_homebrew_list : List FsOp :=
  [.mk ["root", "dist", "homebrew", "dist"],
   .mk ["root", "dist", "homebrew"],
   .mk ["root", "dist", "homebrew", "data"],
   .mk ["root", "dist", "homebrew", "logs"],
   .mk ["root", "dist", "homebrew", "plugins"],
   .mk ["root", "dist", "homebrew", "services"],
   .mk ["root", "dist", "homebrew", "settings"],
   .mk ["root", "dist", "homebrew", "themes"],
   .mk ["home", "homebrew"],
   .mk ["home", "homebrew", "data"],
   .mk ["home", "homebrew", "logs"],
   .mk ["home", "homebrew", "plugins"],
   .mk ["home", "homebrew", "services"],
   .mk ["home", "homebrew", "settings"],
   .mk ["home", "homebrew", "themes"]]

def setup_homebrew_fs (fs : FS) : FS := applyAll setup_homebrew_list fs

/-- `prepare_backend` (decky_builder.py:199-239), filesystem effect: the
backend package, its static / locales / plugin subtrees, the entrypoint
and the frontend version marker are merged from the fetch root into the
staging-source root, in source order. -/
def prepare_backend_list : List FsOp :=
  [.mk ["root", "src"],
   .ct ["root", "app", "backend", "decky_loader"] ["root", "src", "decky_loader"],
   .mk ["root", "src", "decky_loader"],
   .ct ["root", "app", "backend", "decky_loader", "static"]
       ["root", "src", "decky_loader", "static"],
   .ct ["root", "app", "backend", "decky_loader", "locales"]
       ["root", "src", "decky_loader", "locales"],
   .ct ["root", "app", "backend", "decky_loader", "plugin"]
       ["root", "src", "decky_loader", "plugin"],
   .mk ["root", "src", "src", "legacy"],
   .cp ["root", "app", "backend", "main.py"] ["root", "src", "main.py"],
   .mk ["root", "src", "dist"],
   .cp ["root", "app", "frontend", ".loader.version"]
       ["root", "src", "dist", ".loader.version"]]

def prepare_backend_fs (fs : FS) : FS := applyAll prepare_backend_list fs

/-- Removing an absent directory with no contents changes nothing, which
is why the source's existence guard around removals can be dropped. -/
theorem rmtree_absent_noop (p : Path) (fs : FS)
    (h : ∀ q, isPre p q = true → fs q = none) : rmtree p fs = fs := by
  funext q
  unfold rmtree
  split
  · rename_i hq
    exact (h q hq).symm
  · rfl

theorem setup_directories_no_reads :
    ∀ op ∈ setup_directories_list, ∀ q : Path, op.readSet q = [] := by
  intro op hop q
  fin_cases hop <;> rfl

theorem setup_homebrew_no_reads :
    ∀ op ∈ setup_homebrew_list, ∀ q : Path, op.readSet q = [] := by
  intro op hop q
  fin_cases hop <;> rfl

theorem readsStable_of_no_reads (l : List FsOp)
    (h : ∀ op ∈ l, ∀ q : Path, op.readSet q = []) : ReadsStable l := by
  intro op hop q r hr
  rw [h op hop q] at hr
  simp at hr

/-- Every cell the backend staging reads lies under the fetch root. -/
theorem prepare_backend_reads_app :
    ∀ op ∈ prepare_backend_list, ∀ q r : Path, r ∈ op.readSet q →
      ∃ xs : List String, r = "root" :: "app" :: xs := by
  intro op hop q r hr
  fin_cases hop <;> simp [FsOp.readSet] at hr <;> exact ⟨_, hr.2⟩

/-- No backend-staging primitive writes under the fetch root. -/
theorem prepare_backend_app_untouched :
    ∀ op ∈ prepare_backend_list, ∀ (fs : FS) (xs : List String),
      op.apply fs ("root" :: "app" :: xs) = fs ("root" :: "app" :: xs) := by
  intro op hop fs xs
  fin_cases hop <;> simp [FsOp.apply, makedirs, copytree, copy2, isPre]

theorem prepare_backend_readsStable : ReadsStable prepare_backend_list := by
  intro op hop q r hr
  obtain ⟨xs, rfl⟩ := prepare_backend_reads_app op hop q r hr
  intro op' hop' fs
  exact prepare_backend_app_untouched op' hop' fs xs

/-- C8: the directory-setup, homebrew-structure and backend-staging
stages are idempotent filesystem transformers: running any of them twice
on the same input yields the same tree as running it once. -/
theorem c8_staging_idempotent (fs : FS) :
    setup_directories_fs (setup_directories_fs fs) = setup_directories_fs fs ∧
    setup_homebrew_fs (setup_homebrew_fs fs) = setup_homebrew_fs fs ∧
    prepare_backend_fs (prepare_backend_fs fs) = prepare_backend_fs fs := by
  refine ⟨?_, ?_, ?_⟩
  · exact applyAll_idem _ (readsStable_of_no_reads _ setup_directories_no_reads) fs
  · exact applyAll_idem _ (readsStable_of_no_reads _ setup_homebrew_no_reads) fs
  · exact applyAll_idem _ prepare_backend_readsStable fs

/-!  The retrying remover (decky_builder.py:67-94). -/

/-- Oracle for one call of the retrying remover: whether the fallible
part of attempt `i` raises, and which entries the error-swallowing
removal fails to delete (locked or read-only files). -/
structure RemoveEnv where
  bodyRaises : Nat → Bool
  survives : Path → Bool

/-- How `safe_remove_directory` returned: via the `return` inside the
try-block, or by falling out of the loop after the final warning.  There
is no raising alternative: the translated function is total. -/
inductive RemoveOutcome
  | success
  | warned
deriving DecidableEq, Repr

/-- `shutil.rmtree(p, ignore_errors=True)` preceded by the per-file
permission stripping of version-control metadata: entries under `p` that
the OS releases disappear, stubborn ones survive silently. -/
def rmtreeSwallow (p : Path) (sv : Path → Bool) (fs : FS) : FS :=
  fun q => if isPre p q && !(sv q) then none else fs q

/-- The try-block body of one attempt (decky_builder.py:73-87): if the
path exists, strip permissions and remove with errors ignored; either
way control reaches the `return`. -/
def removeAttempt (p : Path) (env : RemoveEnv) (fs : FS) : FS :=
  if (fs p).isSome then rmtreeSwallow p env.survives fs else fs

/-- `safe_remove_directory` (decky_builder.py:67-94): up to three
attempts with a fixed delay between them; an exception from an attempt
body is caught and printed (the filesystem is left as it was); after the
third failure a warning is printed and the function returns normally. -/
def safe_remove_directory (p : Path) (env : RemoveEnv) (fs : FS) :
    FS × RemoveOutcome :=
  if !env.bodyRaises 0 then (removeAttempt p env fs, .success)
  else if !env.bodyRaises 1 then (removeAttempt p env fs, .success)
  else if !env.bodyRaises 2 then (removeAttempt p env fs, .success)
  else (fs, .warned)

theorem rmtreeSwallow_ideal (p : Path) (fs : FS) :
    rmtreeSwallow p (fun _ => false) fs = rmtree p fs := by
  funext q
  simp [rmtreeSwallow, rmtree]

/-- The failure-free removal environment: no attempt raises, nothing
survives removal. -/
def idealRemoveEnv : RemoveEnv where
  bodyRaises := fun _ => false
  survives := fun _ => false

/-- In the failure-free environment the retrying remover is the plain
guarded subtree removal; this justifies embedding the removal steps of
`setup_directories` as `rmtree`. -/
theorem safe_remove_directory_ideal (p : Path) (fs : FS) :
    safe_remove_directory p idealRemoveEnv fs =
      (if (fs p).isSome then rmtree p fs else fs, .success) := by
  simp [safe_remove_directory, idealRemoveEnv, removeAttempt, rmtreeSwallow_ideal]

/-- C2: `safe_remove_directory` never raises, for any path, filesystem
and attempt-failure pattern: it always returns normally (successfully or
with the final warning), a non-existent path leaves the filesystem
untouched, and exhausting all three attempts yields the warning return
with the filesystem unchanged. -/
theorem c2_safe_remove_never_raises (p : Path) (env : RemoveEnv) (fs : FS) :
    ((safe_remove_directory p env fs).2 = .success ∨
      (safe_remove_directory p env fs).2 = .warned) ∧
    (fs p = none → (safe_remove_directory p env fs).1 = fs) ∧
    ((∀ i, env.bodyRaises i = true) →
      safe_remove_directory p env fs = (fs, .warned)) := by
  refine ⟨?_, ?_, ?_⟩
  · unfold safe_remove_directory
    split
    · left; rfl
    · split
      · left; rfl
      · split
        · left; rfl
        · right; rfl
  · intro hnone
    have hatt : removeAttempt p env fs = fs := by
      simp [removeAttempt, hnone]
    unfold safe_remove_directory
    split
    · simpa using hatt
    · split
      · simpa using hatt
      · split
        · simpa using hatt
        · rfl
  · intro hall
    simp [safe_remove_directory, hall 0, hall 1, hall 2]

/-- The empty filesystem. -/
def emptyFS : FS := fun _ => none

/-- A removal environment in which every attempt raises. -/
def removeEnvAllFail : RemoveEnv where
  bodyRaises := fun _ => true
  survives := fun _ => false

/-- Witness for C2 at a concrete input: all three attempts fail and the
call still returns normally, with the warning outcome. -/
theorem c2_safe_remove_never_raises_witness :
    safe_remove_directory ["d"] removeEnvAllFail emptyFS = (emptyFS, .warned) :=
  (c2_safe_remove_never_raises ["d"] removeEnvAllFail emptyFS).2.2 (fun _ => rfl)

/-!  The pipeline (`DeckyBuilder.run` and `main`, decky_builder.py:589-630).

External processes and host APIs are opaque collaborators; the outcome
of each call is drawn from an environment record, and making the call
is recorded in an event trace. -/

/-- External calls the orchestrator can make. -/
inductive Event
  | nodeProbe
  | npmProbe
  | installNodejs
  | pnpmProbe
  | npmInstallPnpm
  | gitProbe
  | gitClone
  | gitDescribe
  | gitCheckout (ref : String)
  | frontendBatch
  | pipInstall
  | pyinstallerConsole
  | pyinstallerDetached
  | steamRegistryLookup
  | createDebugFlag
  | createShortcut
  | createAutostart
deriving DecidableEq, Repr

/-- Outcomes of all external collaborators for one run.  A probe field is
the stripped stdout of the version probe, `none` meaning the probe
raised; Boolean fields are the success of the corresponding call. -/
structure Env where
  pythonVersionOk : Bool
  nodeProbe : Option String
  npmProbe : Option String
  node18Found : Bool
  nodeDownloadOk : Bool
  msiInstallOk : Bool
  nodeVerify : Option String
  npmVerify : Option String
  pnpmProbe : Option String
  npmInstallPnpmOk : Bool
  pnpmProbe2 : Option String
  gitProbe : Option String
  cloneOk : Bool
  repo : FS
  describeTag : Option String
  checkoutOk : String → Bool
  frontendBatchOk : Bool
  pipReqOk : Bool
  servicesCleanRaises : Bool
  pyi1Ok : Bool
  pyi2Ok : Bool
  consoleExe : String
  noconsoleExe : String
  steamPath : Option String
  steamExeExists : Bool
  touchOk : Bool
  shortcutOk : Bool
  autostartOk : Bool

/-- Orchestrator state: the release reference (rewritten once by the
fetch stage when it resolves the sentinel), the filesystem, the
registered temporary artifacts and the trace of external calls made. -/
structure St where
  release : String
  fs : FS
  temp_files : List Path
  trace : List Event

/-- Record an external call. -/
def St.log (st : St) (e : Event) : St :=
  { st with trace := st.trace ++ [e] }

/-- A stage result: the state afterwards, plus the raised exception
message if the stage raised. -/
abbrev Res := St × Option String

def ok (st : St) : Res := (st, none)

def raise (st : St) (msg : String) : Res := (st, some msg)

/-- Exception propagation: a raised exception skips the remaining
stages, keeping the state at the point of the raise. -/
def bindR (r : Res) (f : St → Res) : Res :=
  match r.2 with
  | some e => (r.1, some e)
  | none => f r.1

/-- `str.startswith(pre)`, on the character lists of the strings. -/
def strStartsWith (s pre : String) : Bool :=
  pre.data.isPrefixOf s.data

/-- `str.endswith(suf)`, on the character lists of the strings. -/
def strEndsWith (s suf : String) : Bool :=
  suf.data.isSuffixOf s.data

/-- `check_python_version` (decky_builder.py:540-544). -/
def check_python_version (env : Env) (st : St) : Res :=
  if env.pythonVersionOk then ok st
  else raise st ("This script requires Python 3.11")

def nodeInstallerPath : Path := ["root", "temp", "node-v18.18.0-x64.msi"]

/-- `install_nodejs` (decky_builder.py:371-468): scan known install
locations for an existing v18.18.0 (success if found, after a search
path update), otherwise download the pinned installer unless cached,
silently uninstall conflicting versions, install, wait, and re-probe
node and npm; any failure in that chain raises.  The search-path
mutation and the powershell uninstall are host effects outside the
modelled trees. -/
def install_nodejs (env : Env) (st : St) : Res :=
  let st := st.log .installNodejs
  if env.node18Found then ok st
  else
    let st := { st with fs := makedirs ["root", "temp"] st.fs }
    let dl : Res :=
      if (st.fs nodeInstallerPath).isSome then ok st
      else if env.nodeDownloadOk then
        ok { st with fs := writeFileFS nodeInstallerPath ("msi") st.fs }
      else raise st ("Error downloading Node.js installer")
    bindR dl fun st =>
      if !env.msiInstallOk then raise st ("Installation failed")
      else
        match env.nodeVerify with
        | none => raise st ("node verification raised")
        | some v =>
          if !(strStartsWith v ("v18.18.0")) then
            raise st ("Wrong Node.js version installed")
          else
            match env.npmVerify with
            | none => raise st ("npm verification raised")
            | some _ => ok { st with fs := rmtree ["root", "temp"] st.fs }

/-- Node/npm block of `check_dependencies` (decky_builder.py:550-565):
a raised node or npm probe, or a node version outside 18.x, leads into
`install_nodejs`, whose failure is fatal. -/
def check_dependencies_node (env : Env) (st : St) : Res :=
  let st := st.log .nodeProbe
  match env.nodeProbe with
  | none => install_nodejs env st
  | some nodeVer =>
    let st := st.log .npmProbe
    match env.npmProbe with
    | none => install_nodejs env st
    | some _ =>
      if !(strStartsWith nodeVer ("v18.")) then install_nodejs env st
      else ok st

/-- pnpm block of `check_dependencies` (decky_builder.py:567-575): on a
failed probe, install pnpm through npm and re-probe; a failure of the
install or the re-probe is fatal. -/
def check_dependencies_pnpm (env : Env) (st : St) : Res :=
  let st := st.log .pnpmProbe
  match env.pnpmProbe with
  | some _ => ok st
  | none =>
    let st := st.log .npmInstallPnpm
    if !env.npmInstallPnpmOk then raise st ("npm i -g pnpm failed")
    else
      let st := st.log .pnpmProbe
      match env.pnpmProbe2 with
      | none => raise st ("pnpm probe failed after install")
      | some _ => ok st

/-- git block of `check_dependencies` (decky_builder.py:577-582): a
failed probe is fatal, with no install attempt. -/
def check_dependencies_git (env : Env) (st : St) : Res :=
  let st := st.log .gitProbe
  match env.gitProbe with
  | none => raise st ("git is not installed")
  | some _ => ok st

/-- `check_dependencies` (decky_builder.py:546-587): the three blocks in
source order, any raise propagating. -/
def check_dependencies (env : Env) (st : St) : Res :=
  bindR (check_dependencies_node env st) fun st =>
  bindR (check_dependencies_pnpm env st) fun st =>
  check_dependencies_git env st

/-- `setup_directories` as a pipeline stage; it never raises. -/
def setup_directories (st : St) : Res :=
  ok { st with fs := setup_directories_fs st.fs }

/-- `clone_repository` (decky_builder.py:128-151): drop any previous
fetch root, clone (fatal on failure) which plants the repository tree,
then, only when the requested release is the sentinel, resolve the most
recent tag (a resolution failure is printed and swallowed, the sentinel
kept), and finally check out the effective release (fatal on failure). -/
def clone_repository (env : Env) (st : St) : Res :=
  let st := { st with fs := rmtree appDir st.fs }
  let st := st.log .gitClone
  if !env.cloneOk then raise st ("git clone failed")
  else
    let st := { st with fs := graft appDir env.repo st.fs }
    let st :=
      if st.release = "main" then
        let st := st.log .gitDescribe
        match env.describeTag with
        | some t => { st with release := t }
        | none => st
      else st
    let st := st.log (.gitCheckout st.release)
    if env.checkoutOk st.release then ok st else raise st ("git checkout failed")

/-- `setup_homebrew` as a pipeline stage; it never raises. -/
def setup_homebrew (st : St) : Res :=
  ok { st with fs := setup_homebrew_fs st.fs }

def frontendDir : Path := ["root", "app", "frontend"]
def frontendMarker : Path := ["root", "app", "frontend", ".loader.version"]
def frontendBatchFile : Path := ["root", "app", "frontend", "build_frontend.bat"]

/-- The generated transient build script (decky_builder.py:176-180). -/
def batchScript : String :=
  "@echo off\ncall pnpm install\nif %errorlevel% neq 0 exit /b %errorlevel%\ncall pnpm run build\nif %errorlevel% neq 0 exit /b %errorlevel%\n"

/-- `build_frontend` (decky_builder.py:153-197): the frontend subtree is
required, the version marker and the transient build script are written
into it and registered for cleanup, and the script is run; a non-zero
exit of either bundler step is fatal. -/
def build_frontend (env : Env) (st : St) : Res :=
  if (st.fs frontendDir).isNone then
    raise st ("Frontend directory not found")
  else
    let st := { st with fs := writeFileFS frontendMarker st.release st.fs }
    let st := { st with temp_files := st.temp_files ++ [frontendMarker] }
    let st := { st with fs := writeFileFS frontendBatchFile batchScript st.fs }
    let st := { st with temp_files := st.temp_files ++ [frontendBatchFile] }
    let st := st.log .frontendBatch
    if env.frontendBatchOk then ok st
    else raise st ("Error building frontend: Command failed")

/-- `prepare_backend` (decky_builder.py:199-239) as a stage: the staging
merge of `prepare_backend_list`, raising at the first copy whose source
is absent, as `shutil.copytree` and `shutil.copy2` would. -/
def prepare_backend (st : St) : Res :=
  let fs0 := makedirs ["root", "src"] st.fs
  if (fs0 ["root", "app", "backend", "decky_loader"]).isNone then
    raise { st with fs := fs0 } ("copytree source missing: decky_loader")
  else
    let fs1 := makedirs ["root", "src", "decky_loader"]
        (copytree ["root", "app", "backend", "decky_loader"]
          ["root", "src", "decky_loader"] fs0)
    if (fs1 ["root", "app", "backend", "decky_loader", "static"]).isNone then
      raise { st with fs := fs1 } ("copytree source missing: static")
    else
      let fs2 := copytree ["root", "app", "backend", "decky_loader", "static"]
          ["root", "src", "decky_loader", "static"] fs1
      if (fs2 ["root", "app", "backend", "decky_loader", "locales"]).isNone then
        raise { st with fs := fs2 } ("copytree source missing: locales")
      else
        let fs3 := copytree ["root", "app", "backend", "decky_loader", "locales"]
            ["root", "src", "decky_loader", "locales"] fs2
        if (fs3 ["root", "app", "backend", "decky_loader", "plugin"]).isNone then
          raise { st with fs := fs3 } ("copytree source missing: plugin")
        else
          let fs4 := makedirs ["root", "src", "src", "legacy"]
              (copytree ["root", "app", "backend", "decky_loader", "plugin"]
                ["root", "src", "decky_loader", "plugin"] fs3)
          if (fs4 ["root", "app", "backend", "main.py"]).isNone then
            raise { st with fs := fs4 } ("copy2 source missing: main.py")
          else
            let fs5 := makedirs ["root", "src", "dist"]
                (copy2 ["root", "app", "backend", "main.py"]
                  ["root", "src", "main.py"] fs4)
            if (fs5 ["root", "app", "frontend", ".loader.version"]).isNone then
              raise { st with fs := fs5 } ("copy2 source missing: .loader.version")
            else
              ok { st with fs := (copy2 ["root", "app", "frontend", ".loader.version"]
                  ["root", "src", "dist", ".loader.version"] fs5) }

/-- `install_requirements` (decky_builder.py:241-282): a pip run over
requirements.txt when present (fatal on failure), otherwise a
per-dependency pip loop over the pyproject fallback whose individual
failures are printed and swallowed, otherwise only a warning. -/
def install_requirements (env : Env) (st : St) : Res :=
  if (st.fs ["root", "app", "backend", "requirements.txt"]).isSome then
    let st := st.log .pipInstall
    if env.pipReqOk then ok st else raise st ("pip install -r failed")
  else if (st.fs ["root", "app", "backend", "pyproject.toml"]).isSome then
    ok (st.log .pipInstall)
  else ok st

/-- How `build_executables` finished: an uncaught exception, or a normal
return carrying the source's Boolean result. -/
inductive BEOut
  | exn (msg : String)
  | ret (b : Bool)
deriving DecidableEq, Repr

def srcDistConsoleExe : Path := ["root", "src", "dist", "PluginLoader.exe"]
def srcDistNoconsoleExe : Path := ["root", "src", "dist", "PluginLoader_noconsole.exe"]
def servicesConsoleExe : Path := ["home", "homebrew", "services", "plugin_loader.exe"]
def servicesNoconsoleExe : Path := ["home", "homebrew", "services", "PluginLoader_noconsole.exe"]
def servicesMarker : Path := ["home", "homebrew", "services", ".loader.version"]

/-- The pre-packaging wipe of the per-user services directory
(decky_builder.py:288-296): every entry strictly inside it is deleted,
one `os.remove` / `shutil.rmtree` per entry, with no guard. -/
def clean_services_fs (fs : FS) : FS :=
  fun q => if isPre servicesDir q && !(q == servicesDir) then none else fs q

/-- `build_executables` (decky_builder.py:284-355): wipe the services
directory with unguarded per-item deletion — only `CalledProcessError`
is caught in this function, so a deletion failure propagates as an
exception; run the packager for the console variant and then for the
detached variant, each producing its executable in the staging dist
directory, a packager failure being caught and turned into a `False`
return; then create the services and logs directories, copy both
executables under their deployment names, write the services version
marker and return `True`. -/
def build_executables (env : Env) (st : St) : St × BEOut :=
  if (st.fs servicesDir).isSome && env.servicesCleanRaises then
    (st, .exn ("PermissionError while cleaning services"))
  else
    let st := if (st.fs servicesDir).isSome
      then { st with fs := clean_services_fs st.fs } else st
    let st := st.log .pyinstallerConsole
    if !env.pyi1Ok then (st, .ret false)
    else
      let st := { st with fs := writeFileFS srcDistConsoleExe env.consoleExe st.fs }
      let st := st.log .pyinstallerDetached
      if !env.pyi2Ok then (st, .ret false)
      else
        let st := { st with fs := writeFileFS srcDistNoconsoleExe env.noconsoleExe st.fs }
        let st := { st with fs := makedirs servicesDir st.fs }
        let st := { st with fs := makedirs logsDir st.fs }
        let st := { st with fs := copy2 srcDistConsoleExe servicesConsoleExe st.fs }
        let st := { st with fs := copy2 srcDistNoconsoleExe servicesNoconsoleExe st.fs }
        let st := { st with fs := writeFileFS servicesMarker st.release st.fs }
        (st, .ret true)

/-- `copy_to_homebrew` (decky_builder.py:357-369): creates the staging
mirror directory if absent and deliberately copies nothing — the source
comments that `build_executables` already handled all copying. -/
def copy_to_homebrew (st : St) : Res :=
  ok { st with fs := makedirs homebrewDir st.fs }

/-- `setup_steam_config` (decky_builder.py:470-513): look the companion
app up in the registry — both keys failing is printed and swallowed,
the remaining steps skipped; with a path found and the executable
present, create the debug flag file and the `-dev` shortcut, either
failure being re-raised and hence fatal. -/
def setup_steam_config (env : Env) (st : St) : Res :=
  let st := st.log .steamRegistryLookup
  match env.steamPath with
  | none => ok st
  | some _ =>
    if !env.steamExeExists then ok st
    else
      let st := st.log .createDebugFlag
      if !env.touchOk then raise st ("Error configuring Steam: touch failed")
      else
        let st := st.log .createShortcut
        if env.shortcutOk then ok st
        else raise st ("Error configuring Steam: shortcut failed")

/-- `setup_autostart` (decky_builder.py:515-538): write the startup
batch file into the host startup folder; an exception is printed and
turned into a `False` return, never raised. -/
def setup_autostart (env : Env) (st : St) : St × Bool :=
  let st := st.log .createAutostart
  if env.autostartOk then (st, true) else (st, false)

/-- `DeckyBuilder.run` (decky_builder.py:589-613): the stage sequence.
The Boolean results of `build_executables` and `setup_autostart` are
ignored, exactly as in the source; only raised exceptions propagate. -/
def runPipeline (env : Env) (st : St) : Res :=
  bindR (check_python_version env st) fun st =>
  bindR (check_dependencies env st) fun st =>
  bindR (setup_directories st) fun st =>
  bindR (clone_repository env st) fun st =>
  bindR (setup_homebrew st) fun st =>
  bindR (build_frontend env st) fun st =>
  bindR (prepare_backend st) fun st =>
  bindR (install_requirements env st) fun st =>
  (let be := build_executables env st
   match be.2 with
   | .exn msg => raise be.1 msg
   | .ret _ =>
     bindR (copy_to_homebrew be.1) fun st =>
     bindR (setup_steam_config env st) fun st =>
     ok (setup_autostart env st).1)

/-- The state a run starts from: requested release, pre-existing
filesystem, no temporaries, no calls made. -/
def initSt (release : String) (fs0 : FS) : St :=
  { release := release, fs := fs0, temp_files := [], trace := [] }

/-- `main` (decky_builder.py:615-627): run the pipeline; a propagated
exception is printed and the process exits 1, otherwise 0. -/
def mainFn (env : Env) (release : String) (fs0 : FS) : Nat × St :=
  match runPipeline env (initSt release fs0) with
  | (st, none) => (0, st)
  | (st, some _) => (1, st)

/-- One temporary-artifact removal step of `cleanup`
(decky_builder.py:38-46): files are removed, directories recursively
removed, failures swallowed. -/
def cleanupTempStep (fs : FS) (p : Path) : FS :=
  match fs p with
  | some (.file _) => fun q => if q = p then none else fs q
  | some .dir => rmtree p fs
  | none => fs

/-- Is a root-level name a spec file holding a file entry?  Mirrors the
`glob("*.spec")` plus `os.remove` step, which only deletes files. -/
def isRootSpecFile (fs : FS) (q : Path) : Bool :=
  match q with
  | [r, s] =>
    (r == "root") && (strEndsWith s (".spec")) &&
      (match fs q with
       | some (.file _) => true
       | _ => false)
  | _ => false

/-- `cleanup` (decky_builder.py:34-65), registered with `atexit`: remove
every registered temporary artifact, then the root-level build and dist
trees, then every root-level `*.spec` file; every failure is printed and
swallowed. -/
def cleanup_fs (temps : List Path) (fs : FS) : FS :=
  let fs := temps.foldl cleanupTempStep fs
  let fs := rmtree ["root", "build"] fs
  let fs := rmtree ["root", "dist"] fs
  fun q => if isRootSpecFile fs q then none else fs q

/-- The whole process: `main` followed by the `atexit`-registered
`cleanup`, which runs on success and failure exits alike since it is
registered in the constructor. -/
def processExit (env : Env) (release : String) (fs0 : FS) : Nat × St :=
  let r := mainFn env release fs0
  (r.1, { r.2 with fs := cleanup_fs r.2.temp_files r.2.fs })

/-- The effective release the fetch stage leaves behind: the input
itself unless it is the sentinel, in which case the resolved tag when
resolution succeeds and the sentinel when it fails. -/
def resolveRelease (env : Env) (release : String) : String :=
  if release = "main" then
    match env.describeTag with
    | some t => t
    | none => "main"
  else release

/-- C3: a non-sentinel release reference is used verbatim and the
tag-resolution call is never made; for the sentinel, the effective
release is the resolved tag on success and the (non-empty) sentinel on
failure, and a resolution failure alone never makes the stage raise. -/
theorem c3_release_resolution (env : Env) (st : St) :
    (st.release ≠ "main" →
      (clone_repository env st).1.release = st.release ∧
      (clone_repository env st).1.trace.count .gitDescribe =
        st.trace.count .gitDescribe) ∧
    (st.release = "main" → env.describeTag = none →
      (clone_repository env st).1.release = "main" ∧ "main" ≠ "" ∧
      (env.cloneOk = true → env.checkoutOk ("main") = true →
        (clone_repository env st).2 = none)) ∧
    (st.release = "main" → ∀ t, env.describeTag = some t →
      env.cloneOk = true → (clone_repository env st).1.release = t) := by
  refine ⟨?_, ?_, ?_⟩
  · intro h
    unfold clone_repository
    by_cases hc : env.cloneOk <;>
      simp [hc, h, St.log, List.count_append, raise, ok]
    split <;> simp [List.count_append]
  · intro h hd
    unfold clone_repository
    by_cases hc : env.cloneOk <;>
      simp [hc, h, hd, St.log, raise, ok]
    constructor
    · split <;> rfl
    · intro hck
      simp [hck]
  · intro h t hd hc
    unfold clone_repository
    simp [hc, h, hd, St.log, raise, ok]
    split <;> simp [ok, raise]

/-- A concrete repository tree holding the subtrees the pipeline needs. -/
def repoFS : FS := fun q =>
  if q == ["frontend"] then some .dir
  else if q == ["backend"] then some .dir
  else if q == ["backend", "decky_loader"] then some .dir
  else if q == ["backend", "decky_loader", "static"] then some .dir
  else if q == ["backend", "decky_loader", "locales"] then some .dir
  else if q == ["backend", "decky_loader", "plugin"] then some (Node.dir)
  else if q == ["backend", "main.py"] then some (.file ("entry"))
  else if q == ["backend", "requirements.txt"] then some (.file ("aiohttp"))
  else if q == [] then some .dir
  else none

/-- A concrete environment in which every external call succeeds. -/
def envBase : Env where
  pythonVersionOk := true
  nodeProbe := some ("v18.18.0")
  npmProbe := some ("9.8.1")
  node18Found := true
  nodeDownloadOk := true
  msiInstallOk := true
  nodeVerify := some ("v18.18.0")
  npmVerify := some ("9.8.1")
  pnpmProbe := some ("8.6.0")
  npmInstallPnpmOk := true
  pnpmProbe2 := some ("8.6.0")
  gitProbe := some ("git version 2.43.0")
  cloneOk := true
  repo := repoFS
  describeTag := some ("v3.1.0")
  checkoutOk := fun _ => true
  frontendBatchOk := true
  pipReqOk := true
  servicesCleanRaises := false
  pyi1Ok := true
  pyi2Ok := true
  consoleExe := "console-exe-bytes"
  noconsoleExe := "noconsole-exe-bytes"
  steamPath := some ("C:/Steam")
  steamExeExists := true
  touchOk := true
  shortcutOk := true
  autostartOk := true

/-- Witness for C3 at a concrete input: sentinel request, resolution
failure; the stage keeps the sentinel and does not raise. -/
theorem c3_release_resolution_witness :
    (clone_repository { envBase with describeTag := none }
        (initSt ("main") emptyFS)).1.release = "main" ∧
    (clone_repository { envBase with describeTag := none }
        (initSt ("main") emptyFS)).2 = none := by
  have h := (c3_release_resolution { envBase with describeTag := none }
    (initSt ("main") emptyFS)).2.1 rfl rfl
  exact ⟨h.1, h.2.2 rfl rfl⟩

/-- C10: with the per-user services directory present, a failing
unguarded deletion inside it propagates out of `build_executables` as an
exception, leaving the state exactly as it was — in particular neither
packager variant is invoked; when the wipe succeeds it removes every
entry strictly inside the services directory, and only then is the
console packager called. -/
theorem c10_services_wipe (env : Env) (st : St)
    (hex : (st.fs servicesDir).isSome = true) :
    (env.servicesCleanRaises = true →
      build_executables env st =
        (st, .exn ("PermissionError while cleaning services"))) ∧
    (∀ q : Path, isPre servicesDir q = true → q ≠ servicesDir →
      clean_services_fs st.fs q = none) ∧
    (env.servicesCleanRaises = false →
      Event.pyinstallerConsole ∈ (build_executables env st).1.trace) := by
  refine ⟨?_, ?_, ?_⟩
  · intro hr
    simp [build_executables, hex, hr]
  · intro q hq hne
    simp [clean_services_fs, hq, hne]
  · intro hr
    unfold build_executables
    by_cases hp1 : env.pyi1Ok <;> by_cases hp2 : env.pyi2Ok <;>
      simp [hex, hr, hp1, hp2, St.log]

/-- A filesystem whose per-user services directory exists and holds one
stale entry. -/
def fsWithServices : FS := fun q =>
  if q == ["home"] then some .dir
  else if q == ["home", "homebrew"] then some .dir
  else if q == ["home", "homebrew", "services"] then some .dir
  else if q == ["home", "homebrew", "services", "old.exe"] then some (.file ("x"))
  else none

/-- Witness for C10 at a concrete input: a locked entry makes the
packaging stage raise with the state untouched. -/
theorem c10_services_wipe_witness :
    build_executables { envBase with servicesCleanRaises := true }
        (initSt ("v1.0") fsWithServices) =
      (initSt ("v1.0") fsWithServices,
        .exn ("PermissionError while cleaning services")) :=
  (c10_services_wipe { envBase with servicesCleanRaises := true }
    (initSt ("v1.0") fsWithServices) (by decide)).1 rfl

set_option maxHeartbeats 2000000 in
/-- Counterexample to C5 as stated: with the primary package manager
(npm) missing but a correct Node.js discoverable, the dependency stage
does not abort — it attempts an installation (of Node.js, which bundles
npm) and returns successfully. -/
theorem c5_counterexample :
    (check_dependencies { envBase with npmProbe := none }
        (initSt ("v1.0") emptyFS)).2 = none ∧
    Event.installNodejs ∈
      (check_dependencies { envBase with npmProbe := none }
        (initSt ("v1.0") emptyFS)).1.trace := by
  constructor <;> decide

theorem bindR_fatal (r : Res) (f : St → Res)
    (hf : ∀ st, ((f st).2).isSome = true) :
    ((bindR r f).2).isSome = true := by
  unfold bindR
  cases h : r.2 <;> simp [hf]

theorem bindR_mem_trace (e : Event) (r : Res) (f : St → Res)
    (hr : e ∈ r.1.trace) (hf : ∀ st, e ∈ st.trace → e ∈ (f st).1.trace) :
    e ∈ (bindR r f).1.trace := by
  unfold bindR
  cases h : r.2 <;> simp [h, hr, hf _ hr]

theorem install_nodejs_mem (env : Env) (st : St) :
    Event.installNodejs ∈ (install_nodejs env st).1.trace := by
  unfold install_nodejs
  simp only [bindR, St.log, ok, raise]
  repeat' split
  all_goals simp

theorem check_dependencies_pnpm_mem (env : Env) (st : St) (e : Event)
    (he : e ∈ st.trace) : e ∈ (check_dependencies_pnpm env st).1.trace := by
  unfold check_dependencies_pnpm
  repeat' split
  all_goals simp [St.log, raise, ok, he]

theorem check_dependencies_git_mem (env : Env) (st : St) (e : Event)
    (he : e ∈ st.trace) : e ∈ (check_dependencies_git env st).1.trace := by
  unfold check_dependencies_git
  split <;> simp [St.log, raise, ok, he]

theorem check_dependencies_git_fatal (env : Env) (st : St)
    (hgit : env.gitProbe = none) :
    ((check_dependencies_git env st).2).isSome = true := by
  simp [check_dependencies_git, hgit, raise]

/-- C5 amended: a missing git is always fatal for the dependency stage,
whose only reaction is the single failed probe — there is no git install
path in the stage at all; a missing npm, by contrast, routes into the
Node.js installer rather than aborting. -/
theorem c5_amended (env : Env) (st : St) :
    (env.gitProbe = none → ((check_dependencies env st).2).isSome = true) ∧
    (env.nodeProbe ≠ none → env.npmProbe = none →
      Event.installNodejs ∈ (check_dependencies env st).1.trace) := by
  constructor
  · intro hgit
    unfold check_dependencies
    apply bindR_fatal
    intro st1
    apply bindR_fatal
    intro st2
    exact check_dependencies_git_fatal env st2 hgit
  · intro hnode hnpm
    obtain ⟨v, hv⟩ := Option.ne_none_iff_exists'.mp hnode
    unfold check_dependencies
    apply bindR_mem_trace
    · simp only [check_dependencies_node, hv, hnpm, St.log]
      exact install_nodejs_mem env _
    · intro st1 h1
      apply bindR_mem_trace
      · exact check_dependencies_pnpm_mem env st1 _ h1
      · intro st2 h2
        exact check_dependencies_git_mem env st2 _ h2

/-- Witness for the amended C5 at a concrete input: a missing git makes
the dependency stage raise. -/
theorem c5_amended_witness :
    ((check_dependencies { envBase with gitProbe := none }
      (initSt ("v1.0") emptyFS)).2).isSome = true :=
  (c5_amended { envBase with gitProbe := none }
    (initSt ("v1.0") emptyFS)).1 rfl

/-!  Evaluation of a successful run. -/

/-- The dependency stage succeeds without installing anything: the
probes answer and the node version is an 18.x one. -/
def DepsOk (env : Env) : Prop :=
  env.pythonVersionOk = true ∧
  (∃ v, env.nodeProbe = some v ∧ strStartsWith v ("v18.") = true) ∧
  env.npmProbe ≠ none ∧ env.pnpmProbe ≠ none ∧ env.gitProbe ≠ none

/-- The cloned repository holds every subtree the later stages read. -/
def RepoOk (repo : FS) : Prop :=
  repo ["frontend"] = some .dir ∧
  repo ["backend", "decky_loader"] = some .dir ∧
  repo ["backend", "decky_loader", "static"] = some .dir ∧
  repo ["backend", "decky_loader", "locales"] = some .dir ∧
  repo ["backend", "decky_loader", "plugin"] = some .dir ∧
  (∃ c, repo ["backend", "main.py"] = some (.file c)) ∧
  (∃ c, repo ["backend", "requirements.txt"] = some (.file c))

/-- Every stage up to and including packaging succeeds. -/
def CoreOk (env : Env) (release : String) : Prop :=
  DepsOk env ∧ RepoOk env.repo ∧ env.cloneOk = true ∧
  env.checkoutOk (resolveRelease env release) = true ∧
  env.frontendBatchOk = true ∧ env.pipReqOk = true ∧
  env.servicesCleanRaises = false ∧ env.pyi1Ok = true ∧ env.pyi2Ok = true

theorem bindR_ok (st : St) (f : St → Res) : bindR (ok st) f = f st := rfl

theorem check_python_version_ok (env : Env) (st : St)
    (h : env.pythonVersionOk = true) : check_python_version env st = ok st := by
  simp [check_python_version, h]

theorem check_dependencies_ok (env : Env) (st : St) (h : DepsOk env) :
    check_dependencies env st =
      ok ((((st.log .nodeProbe).log .npmProbe).log .pnpmProbe).log .gitProbe) := by
  obtain ⟨-, ⟨v, hv, hv18⟩, hnpm, hpnpm, hgit⟩ := h
  obtain ⟨w, hw⟩ := Option.ne_none_iff_exists'.mp hnpm
  obtain ⟨x, hx⟩ := Option.ne_none_iff_exists'.mp hpnpm
  obtain ⟨y, hy⟩ := Option.ne_none_iff_exists'.mp hgit
  simp [check_dependencies, check_dependencies_node, check_dependencies_pnpm,
    check_dependencies_git, bindR, hv, hv18, hw, hx, hy, ok, St.log]

theorem clone_repository_ok (env : Env) (st : St) (hc : env.cloneOk = true)
    (hck : env.checkoutOk (resolveRelease env st.release) = true) :
    clone_repository env st =
      ok { release := resolveRelease env st.release,
           fs := graft appDir env.repo (rmtree appDir st.fs),
           temp_files := st.temp_files,
           trace := st.trace ++
             (if st.release = "main" then
               [Event.gitClone, Event.gitDescribe,
                 Event.gitCheckout (resolveRelease env st.release)]
              else [Event.gitClone, Event.gitCheckout st.release]) } := by
  by_cases h : st.release = "main"
  · cases hd : env.describeTag with
    | none =>
      simp [resolveRelease, h, hd] at hck
      simp [clone_repository, resolveRelease, h, hd, hc, hck, St.log, ok]
    | some t =>
      simp [resolveRelease, h, hd] at hck
      simp [clone_repository, resolveRelease, h, hd, hc, hck, St.log, ok]
  · simp [resolveRelease, h] at hck
    simp [clone_repository, resolveRelease, h, hc, hck, St.log, ok]

theorem build_frontend_ok (env : Env) (st : St)
    (hdir : st.fs frontendDir ≠ none) (hb : env.frontendBatchOk = true) :
    build_frontend env st =
      ok { release := st.release,
           fs := writeFileFS frontendBatchFile batchScript
             (writeFileFS frontendMarker st.release st.fs),
           temp_files := st.temp_files ++ [frontendMarker, frontendBatchFile],
           trace := st.trace ++ [Event.frontendBatch] } := by
  simp [build_frontend, Option.isNone_iff_eq_none, hdir, hb, St.log, ok]

theorem prepare_backend_ok (st : St)
    (h1 : st.fs ["root", "app", "backend", "decky_loader"] ≠ none)
    (h2 : st.fs ["root", "app", "backend", "decky_loader", "static"] ≠ none)
    (h3 : st.fs ["root", "app", "backend", "decky_loader", "locales"] ≠ none)
    (h4 : st.fs ["root", "app", "backend", "decky_loader", "plugin"] ≠ none)
    (h5 : st.fs ["root", "app", "backend", "main.py"] ≠ none)
    (h6 : st.fs ["root", "app", "frontend", ".loader.version"] ≠ none) :
    prepare_backend st = ok { st with fs := prepare_backend_fs st.fs } := by
  simp [prepare_backend, prepare_backend_fs, prepare_backend_list, applyAll,
    List.foldl, FsOp.apply, makedirs, copytree, copy2, isPre,
    Option.isNone_iff_eq_none, h1, h2, h3, h4, h5, h6, ok]

theorem install_requirements_ok (env : Env) (st : St)
    (hreq : (st.fs ["root", "app", "backend", "requirements.txt"]).isSome = true)
    (hp : env.pipReqOk = true) :
    install_requirements env st = ok (st.log .pipInstall) := by
  simp [install_requirements, hreq, hp, ok]

theorem build_executables_ok (env : Env) (st : St)
    (hsd : (st.fs servicesDir).isSome = true)
    (hcl : env.servicesCleanRaises = false)
    (h1 : env.pyi1Ok = true) (h2 : env.pyi2Ok = true) :
    build_executables env st =
      ({ release := st.release,
         fs := writeFileFS servicesMarker st.release
           (copy2 srcDistNoconsoleExe servicesNoconsoleExe
             (copy2 srcDistConsoleExe servicesConsoleExe
               (makedirs logsDir
                 (makedirs servicesDir
                   (writeFileFS srcDistNoconsoleExe env.noconsoleExe
                     (writeFileFS srcDistConsoleExe env.consoleExe
                       (clean_services_fs st.fs))))))),
         temp_files := st.temp_files,
         trace := st.trace ++ [Event.pyinstallerConsole, Event.pyinstallerDetached] },
       .ret true) := by
  simp [build_executables, hsd, hcl, h1, h2, St.log]

theorem setup_steam_config_fields (env : Env) (st : St)
    (ht : env.touchOk = true) (hs : env.shortcutOk = true) :
    (setup_steam_config env st).2 = none ∧
    (setup_steam_config env st).1.fs = st.fs ∧
    (setup_steam_config env st).1.release = st.release ∧
    (setup_steam_config env st).1.temp_files = st.temp_files := by
  cases hsp : env.steamPath with
  | none => simp [setup_steam_config, hsp, St.log, ok]
  | some sp =>
    cases hse : env.steamExeExists <;>
      simp [setup_steam_config, hsp, hse, ht, hs, St.log, ok]

theorem setup_autostart_fields (env : Env) (st : St) :
    (setup_autostart env st).1 = st.log .createAutostart := by
  unfold setup_autostart
  split <;> rfl

theorem bindR_of_none (r : Res) (f : St → Res) (h : r.2 = none) :
    bindR r f = f r.1 := by
  unfold bindR
  rw [h]

/-- The OS-integration tail of a run whose flag and shortcut steps
succeed: no exception, and only the trace changes. -/
theorem runPipeline_tail (env : Env) (st : St) (ht : env.touchOk = true)
    (hs : env.shortcutOk = true) :
    (bindR (setup_steam_config env st)
      (fun st => ok (setup_autostart env st).1)).2 = none ∧
    (bindR (setup_steam_config env st)
      (fun st => ok (setup_autostart env st).1)).1.release = st.release ∧
    (bindR (setup_steam_config env st)
      (fun st => ok (setup_autostart env st).1)).1.fs = st.fs ∧
    (bindR (setup_steam_config env st)
      (fun st => ok (setup_autostart env st).1)).1.temp_files = st.temp_files := by
  have h := setup_steam_config_fields env st ht hs
  rw [bindR_of_none _ _ h.1]
  simp [ok, setup_autostart_fields, St.log, h.2.1, h.2.2.1, h.2.2.2]

/-- The filesystem a fully successful run leaves behind, before the exit
cleanup: the stage effects composed in pipeline order. -/
def pipelineFS (env : Env) (release : String) (fs0 : FS) : FS :=
  makedirs homebrewDir
    (writeFileFS servicesMarker (resolveRelease env release)
      (copy2 srcDistNoconsoleExe servicesNoconsoleExe
        (copy2 srcDistConsoleExe servicesConsoleExe
          (makedirs logsDir
            (makedirs servicesDir
              (writeFileFS srcDistNoconsoleExe env.noconsoleExe
                (writeFileFS srcDistConsoleExe env.consoleExe
                  (clean_services_fs
                    (prepare_backend_fs
                      (writeFileFS frontendBatchFile batchScript
                        (writeFileFS frontendMarker (resolveRelease env release)
                          (setup_homebrew_fs
                            (graft appDir env.repo
                              (rmtree appDir (setup_directories_fs fs0)))))))))))))))

/-- The trace of external calls of a run that reaches OS integration. -/
def pipelineTrace (env : Env) (release : String) : List Event :=
  [.nodeProbe, .npmProbe, .pnpmProbe, .gitProbe] ++
  (if release = "main" then
    [.gitClone, .gitDescribe, .gitCheckout (resolveRelease env release)]
   else [.gitClone, .gitCheckout release]) ++
  [.frontendBatch, .pipInstall, .pyinstallerConsole, .pyinstallerDetached]

/-- The state a run with successful core stages carries into the
OS-integration tail. -/
def pipelineSt (env : Env) (release : String) (fs0 : FS) : St where
  release := resolveRelease env release
  fs := pipelineFS env release fs0
  temp_files := [frontendMarker, frontendBatchFile]
  trace := pipelineTrace env release

/-- Evaluation of a run whose core stages succeed, up to the
OS-integration tail. -/
theorem runPipeline_head (env : Env) (release : String) (fs0 : FS)
    (h : CoreOk env release) :
    runPipeline env (initSt release fs0) =
      bindR (setup_steam_config env (pipelineSt env release fs0))
        (fun st => ok (setup_autostart env st).1) := by
  obtain ⟨hdeps, hrepo, hc, hck, hfb, hpip, hcl, hp1, hp2⟩ := h
  obtain ⟨hfr, hbd, hstc, hloc, hplg, ⟨cm, hmn⟩, ⟨cr, hrq⟩⟩ := hrepo
  have hfs2 : ∀ xs : List String,
      setup_homebrew_fs (graft appDir env.repo
        (rmtree appDir (setup_directories_fs fs0))) ("root" :: "app" :: xs) =
      env.repo xs := by
    intro xs
    simp [setup_homebrew_fs, setup_homebrew_list, applyAll, List.foldl,
      FsOp.apply, makedirs, graft, rmtree, setup_directories_fs,
      setup_directories_list, isPre, appDir, srcDir, homebrewDir]
  have hW : ∀ xs : List String,
      (["root", "app"] ++ xs ≠ frontendMarker) →
      (["root", "app"] ++ xs ≠ frontendBatchFile) →
      writeFileFS frontendBatchFile batchScript
        (writeFileFS frontendMarker (resolveRelease env release)
          (setup_homebrew_fs (graft appDir env.repo
            (rmtree appDir (setup_directories_fs fs0))))) ("root" :: "app" :: xs) =
      env.repo xs := by
    intro xs hm hb
    rw [writeFileFS, writeFileFS]
    rw [if_neg ?_, if_neg ?_]
    · exact hfs2 xs
    · exact hm
    · exact hb
  have hfd : setup_homebrew_fs (graft appDir env.repo
      (rmtree appDir (setup_directories_fs fs0))) ["root", "app", "frontend"] ≠
      none := by
    rw [hfs2 ["frontend"], hfr]
    simp
  have hpb1 : writeFileFS frontendBatchFile batchScript
      (writeFileFS frontendMarker (resolveRelease env release)
        (setup_homebrew_fs (graft appDir env.repo
          (rmtree appDir (setup_directories_fs fs0)))))
      ["root", "app", "backend", "decky_loader"] ≠ none := by
    rw [hW ["backend", "decky_loader"] (by decide) (by decide), hbd]
    simp
  have hpb2 : writeFileFS frontendBatchFile batchScript
      (writeFileFS frontendMarker (resolveRelease env release)
        (setup_homebrew_fs (graft appDir env.repo
          (rmtree appDir (setup_directories_fs fs0)))))
      ["root", "app", "backend", "decky_loader", "static"] ≠ none := by
    rw [hW ["backend", "decky_loader", "static"] (by decide) (by decide), hstc]
    simp
  have hpb3 : writeFileFS frontendBatchFile batchScript
      (writeFileFS frontendMarker (resolveRelease env release)
        (setup_homebrew_fs (graft appDir env.repo
          (rmtree appDir (setup_directories_fs fs0)))))
      ["root", "app", "backend", "decky_loader", "locales"] ≠ none := by
    rw [hW ["backend", "decky_loader", "locales"] (by decide) (by decide), hloc]
    simp
  have hpb4 : writeFileFS frontendBatchFile batchScript
      (writeFileFS frontendMarker (resolveRelease env release)
        (setup_homebrew_fs (graft appDir env.repo
          (rmtree appDir (setup_directories_fs fs0)))))
      ["root", "app", "backend", "decky_loader", "plugin"] ≠ none := by
    rw [hW ["backend", "decky_loader", "plugin"] (by decide) (by decide), hplg]
    simp
  have hpb5 : writeFileFS frontendBatchFile batchScript
      (writeFileFS frontendMarker (resolveRelease env release)
        (setup_homebrew_fs (graft appDir env.repo
          (rmtree appDir (setup_directories_fs fs0)))))
      ["root", "app", "backend", "main.py"] ≠ none := by
    rw [hW ["backend", "main.py"] (by decide) (by decide), hmn]
    simp
  have hpb6 : writeFileFS frontendBatchFile batchScript
      (writeFileFS frontendMarker (resolveRelease env release)
        (setup_homebrew_fs (graft appDir env.repo
          (rmtree appDir (setup_directories_fs fs0)))))
      ["root", "app", "frontend", ".loader.version"] ≠ none := by
    simp [writeFileFS, frontendMarker, frontendBatchFile]
  have hreq : (prepare_backend_fs
      (writeFileFS frontendBatchFile batchScript
        (writeFileFS frontendMarker (resolveRelease env release)
          (setup_homebrew_fs (graft appDir env.repo
            (rmtree appDir (setup_directories_fs fs0))))))
      ["root", "app", "backend", "requirements.txt"]).isSome = true := by
    rw [prepare_backend_fs,
      applyAll_untouched prepare_backend_list _ _
        (fun op hop fsx => prepare_backend_app_untouched op hop fsx
          ["backend", "requirements.txt"]),
      hW ["backend", "requirements.txt"] (by decide) (by decide), hrq]
    rfl
  have hsd : ((prepare_backend_fs
      (writeFileFS frontendBatchFile batchScript
        (writeFileFS frontendMarker (resolveRelease env release)
          (setup_homebrew_fs (graft appDir env.repo
            (rmtree appDir (setup_directories_fs fs0))))))) servicesDir).isSome =
      true := by
    simp [prepare_backend_fs, prepare_backend_list, applyAll, List.foldl,
      FsOp.apply, makedirs, copytree, copy2, writeFileFS, isPre,
      frontendMarker, frontendBatchFile, servicesDir, setup_homebrew_fs,
      setup_homebrew_list, graft, rmtree, setup_directories_fs,
      setup_directories_list, appDir, srcDir, homebrewDir]
  unfold runPipeline
  rw [check_python_version_ok env _ hdeps.1, bindR_ok]
  rw [check_dependencies_ok env _ hdeps, bindR_ok]
  simp only [St.log, initSt, setup_directories, bindR_ok, List.nil_append]
  rw [clone_repository_ok env _ hc hck, bindR_ok]
  simp only [setup_homebrew, bindR_ok]
  rw [build_frontend_ok env _ (by exact hfd) hfb, bindR_ok]
  rw [prepare_backend_ok _ (by exact hpb1) (by exact hpb2) (by exact hpb3)
    (by exact hpb4) (by exact hpb5) (by exact hpb6), bindR_ok]
  rw [install_requirements_ok env _ (by exact hreq) hpip, bindR_ok]
  rw [build_executables_ok env _ (by exact hsd) hcl hp1 hp2]
  simp only [copy_to_homebrew, bindR_ok]
  congr 1
  congr 1
  simp [pipelineSt, pipelineTrace, pipelineFS, St.log]

/-- Master evaluation of a fully successful run: no exception, the
release resolved once by the fetch stage, the filesystem as composed in
`pipelineFS`, and exactly the two frontend temporaries registered. -/
theorem runPipeline_ok (env : Env) (release : String) (fs0 : FS)
    (h : CoreOk env release) (ht : env.touchOk = true)
    (hs : env.shortcutOk = true) :
    (runPipeline env (initSt release fs0)).2 = none ∧
    (runPipeline env (initSt release fs0)).1.release = resolveRelease env release ∧
    (runPipeline env (initSt release fs0)).1.fs = pipelineFS env release fs0 ∧
    (runPipeline env (initSt release fs0)).1.temp_files =
      [frontendMarker, frontendBatchFile] := by
  rw [runPipeline_head env release fs0 h]
  exact ⟨(runPipeline_tail env _ ht hs).1,
    (runPipeline_tail env _ ht hs).2.1,
    (runPipeline_tail env _ ht hs).2.2.1,
    (runPipeline_tail env _ ht hs).2.2.2⟩

/-- No backend-staging primitive writes under the per-user home. -/
theorem prepare_backend_home_untouched :
    ∀ op ∈ prepare_backend_list, ∀ (fs : FS) (xs : List String),
      op.apply fs ("home" :: xs) = fs ("home" :: xs) := by
  intro op hop fs xs
  fin_cases hop <;> simp [FsOp.apply, makedirs, copytree, copy2, isPre]

/-- No backend-staging primitive writes under the distribution root. -/
theorem prepare_backend_dist_untouched :
    ∀ op ∈ prepare_backend_list, ∀ (fs : FS) (xs : List String),
      op.apply fs ("root" :: "dist" :: xs) = fs ("root" :: "dist" :: xs) := by
  intro op hop fs xs
  fin_cases hop <;> simp [FsOp.apply, makedirs, copytree, copy2, isPre]

theorem prepare_backend_fs_app_frame (fs : FS) (xs : List String) :
    prepare_backend_fs fs ("root" :: "app" :: xs) = fs ("root" :: "app" :: xs) :=
  applyAll_untouched prepare_backend_list fs _
    (fun op hop fsx => prepare_backend_app_untouched op hop fsx xs)

theorem prepare_backend_fs_home_frame (fs : FS) (xs : List String) :
    prepare_backend_fs fs ("home" :: xs) = fs ("home" :: xs) :=
  applyAll_untouched prepare_backend_list fs _
    (fun op hop fsx => prepare_backend_home_untouched op hop fsx xs)

theorem prepare_backend_fs_dist_frame (fs : FS) (xs : List String) :
    prepare_backend_fs fs ("root" :: "dist" :: xs) =
      fs ("root" :: "dist" :: xs) :=
  applyAll_untouched prepare_backend_list fs _
    (fun op hop fsx => prepare_backend_dist_untouched op hop fsx xs)

theorem pipelineFS_frontendMarker (env : Env) (release : String) (fs0 : FS) :
    pipelineFS env release fs0 frontendMarker =
      some (.file (resolveRelease env release)) := by
  simp [pipelineFS, makedirs, writeFileFS, copy2, clean_services_fs, isPre,
    prepare_backend_fs_app_frame, homebrewDir, servicesMarker,
    srcDistConsoleExe, srcDistNoconsoleExe, servicesConsoleExe,
    servicesNoconsoleExe, logsDir, servicesDir, frontendMarker,
    frontendBatchFile]

theorem pipelineFS_distMarker (env : Env) (release : String) (fs0 : FS) :
    pipelineFS env release fs0 ["root", "src", "dist", ".loader.version"] =
      some (.file (resolveRelease env release)) := by
  simp [pipelineFS, prepare_backend_fs, prepare_backend_list, applyAll,
    List.foldl, FsOp.apply, makedirs, copytree, copy2, writeFileFS,
    clean_services_fs, isPre, List.drop, homebrewDir, servicesMarker,
    srcDistConsoleExe, srcDistNoconsoleExe, servicesConsoleExe,
    servicesNoconsoleExe, logsDir, servicesDir, frontendMarker,
    frontendBatchFile]

theorem pipelineFS_servicesMarker (env : Env) (release : String) (fs0 : FS) :
    pipelineFS env release fs0 servicesMarker =
      some (.file (resolveRelease env release)) := by
  simp [pipelineFS, makedirs, writeFileFS, isPre, homebrewDir, servicesMarker]

theorem pipelineFS_servicesConsoleExe (env : Env) (release : String) (fs0 : FS) :
    pipelineFS env release fs0 servicesConsoleExe =
      some (.file env.consoleExe) := by
  simp [pipelineFS, makedirs, writeFileFS, copy2, isPre, homebrewDir,
    servicesMarker, srcDistConsoleExe, srcDistNoconsoleExe,
    servicesConsoleExe, servicesNoconsoleExe, logsDir, servicesDir]

theorem pipelineFS_servicesNoconsoleExe (env : Env) (release : String) (fs0 : FS) :
    pipelineFS env release fs0 servicesNoconsoleExe =
      some (.file env.noconsoleExe) := by
  simp [pipelineFS, makedirs, writeFileFS, copy2, isPre, homebrewDir,
    servicesMarker, srcDistConsoleExe, srcDistNoconsoleExe,
    servicesConsoleExe, servicesNoconsoleExe, logsDir, servicesDir]

theorem pipelineFS_homebrewDir (env : Env) (release : String) (fs0 : FS) :
    pipelineFS env release fs0 homebrewDir = some .dir := by
  simp [pipelineFS, makedirs, writeFileFS, copy2, clean_services_fs, isPre,
    prepare_backend_fs_dist_frame, setup_homebrew_fs, setup_homebrew_list,
    applyAll, List.foldl, FsOp.apply, graft, rmtree, setup_directories_fs,
    setup_directories_list, homebrewDir, servicesMarker, srcDistConsoleExe,
    srcDistNoconsoleExe, servicesConsoleExe, servicesNoconsoleExe, logsDir,
    servicesDir, appDir, srcDir, frontendMarker, frontendBatchFile]

theorem pipelineFS_stagingConsoleExe (env : Env) (release : String) (fs0 : FS) :
    pipelineFS env release fs0
      ["root", "dist", "homebrew", "services", "plugin_loader.exe"] = none := by
  simp [pipelineFS, makedirs, writeFileFS, copy2, clean_services_fs, isPre,
    prepare_backend_fs_dist_frame, setup_homebrew_fs, setup_homebrew_list,
    applyAll, List.foldl, FsOp.apply, graft, rmtree, setup_directories_fs,
    setup_directories_list, homebrewDir, servicesMarker, srcDistConsoleExe,
    srcDistNoconsoleExe, servicesConsoleExe, servicesNoconsoleExe, logsDir,
    servicesDir, appDir, srcDir, frontendMarker, frontendBatchFile]

theorem pipelineFS_stagingNoconsoleExe (env : Env) (release : String) (fs0 : FS) :
    pipelineFS env release fs0
      ["root", "dist", "homebrew", "services", "PluginLoader_noconsole.exe"] =
      none := by
  simp [pipelineFS, makedirs, writeFileFS, copy2, clean_services_fs, isPre,
    prepare_backend_fs_dist_frame, setup_homebrew_fs, setup_homebrew_list,
    applyAll, List.foldl, FsOp.apply, graft, rmtree, setup_directories_fs,
    setup_directories_list, homebrewDir, servicesMarker, srcDistConsoleExe,
    srcDistNoconsoleExe, servicesConsoleExe, servicesNoconsoleExe, logsDir,
    servicesDir, appDir, srcDir, frontendMarker, frontendBatchFile]

/-- On success the process exits 0 carrying the pipeline-final state. -/
theorem mainFn_of_ok (env : Env) (release : String) (fs0 : FS)
    (h2 : (runPipeline env (initSt release fs0)).2 = none) :
    mainFn env release fs0 = (0, (runPipeline env (initSt release fs0)).1) := by
  unfold mainFn
  rcases hrp : runPipeline env (initSt release fs0) with ⟨st1, e1⟩
  rw [hrp] at h2
  simp only at h2
  subst h2
  rfl

/-- C4: on a run whose stages all succeed, the three version markers —
the frontend marker, the staged dist marker and the per-user services
marker — all hold exactly the final resolved release, which is also the
release string the run ends with. -/
theorem c4_markers_identical (env : Env) (release : String) (fs0 : FS)
    (h : CoreOk env release) (ht : env.touchOk = true)
    (hs : env.shortcutOk = true) :
    (mainFn env release fs0).2.release = resolveRelease env release ∧
    (mainFn env release fs0).2.fs frontendMarker =
      some (.file (resolveRelease env release)) ∧
    (mainFn env release fs0).2.fs ["root", "src", "dist", ".loader.version"] =
      some (.file (resolveRelease env release)) ∧
    (mainFn env release fs0).2.fs servicesMarker =
      some (.file (resolveRelease env release)) := by
  obtain ⟨h2, hrel, hfs, -⟩ := runPipeline_ok env release fs0 h ht hs
  rw [mainFn_of_ok env release fs0 h2]
  exact ⟨hrel, by rw [hfs, pipelineFS_frontendMarker],
    by rw [hfs, pipelineFS_distMarker],
    by rw [hfs, pipelineFS_servicesMarker]⟩

/-- The concrete all-success environment satisfies the core success
conditions for any requested release. -/
theorem coreOk_envBase (release : String) : CoreOk envBase release := by
  refine ⟨⟨rfl, ⟨"v18.18.0", rfl, by decide⟩, by decide, by decide, by decide⟩,
    ⟨by decide, by decide, by decide, by decide, by decide,
      ⟨"entry", by decide⟩, ⟨"aiohttp", by decide⟩⟩,
    rfl, rfl, rfl, rfl, rfl, rfl, rfl⟩

/-- Witness for C4 at a concrete input: requesting the tag v1.2.3, all
three markers come out as v1.2.3. -/
theorem c4_markers_identical_witness :
    (mainFn envBase ("v1.2.3") emptyFS).2.fs servicesMarker =
      some (.file ("v1.2.3")) ∧
    (mainFn envBase ("v1.2.3") emptyFS).2.fs frontendMarker =
      some (.file ("v1.2.3")) := by
  have h := c4_markers_identical envBase ("v1.2.3") emptyFS
    (coreOk_envBase ("v1.2.3")) rfl rfl
  have hrr : resolveRelease envBase ("v1.2.3") = "v1.2.3" := by decide
  rw [hrr] at h
  exact ⟨h.2.2.2, h.2.1⟩

set_option maxHeartbeats 2000000 in
/-- Counterexample to C6 as stated: on a fully successful concrete run
the per-user services subtree receives both executables, but the staging
mirror's services subtree receives nothing — the deployment does not
copy into the staging mirror. -/
theorem c6_counterexample :
    (mainFn envBase ("v1.0") emptyFS).1 = 0 ∧
    (mainFn envBase ("v1.0") emptyFS).2.fs servicesConsoleExe =
      some (.file ("console-exe-bytes")) ∧
    (mainFn envBase ("v1.0") emptyFS).2.fs
      ["root", "dist", "homebrew", "services", "plugin_loader.exe"] = none ∧
    (mainFn envBase ("v1.0") emptyFS).2.fs
      ["root", "dist", "homebrew", "services", "PluginLoader_noconsole.exe"] =
      none := by
  refine ⟨?_, ?_, ?_, ?_⟩ <;> decide

/-- C6 amended: on every successful run the deployment copies both
executables — the detached one under its distinct name — and the version
marker into the per-user services subtree (created if absent), while the
staging mirror directory is merely created: no executable and no marker
is copied into it. -/
theorem c6_amended (env : Env) (release : String) (fs0 : FS)
    (h : CoreOk env release) (ht : env.touchOk = true)
    (hs : env.shortcutOk = true) :
    (mainFn env release fs0).1 = 0 ∧
    (mainFn env release fs0).2.fs servicesConsoleExe =
      some (.file env.consoleExe) ∧
    (mainFn env release fs0).2.fs servicesNoconsoleExe =
      some (.file env.noconsoleExe) ∧
    (mainFn env release fs0).2.fs servicesMarker =
      some (.file (resolveRelease env release)) ∧
    (mainFn env release fs0).2.fs homebrewDir = some .dir ∧
    (mainFn env release fs0).2.fs
      ["root", "dist", "homebrew", "services", "plugin_loader.exe"] = none ∧
    (mainFn env release fs0).2.fs
      ["root", "dist", "homebrew", "services", "PluginLoader_noconsole.exe"] =
      none := by
  obtain ⟨h2, -, hfs, -⟩ := runPipeline_ok env release fs0 h ht hs
  rw [mainFn_of_ok env release fs0 h2]
  exact ⟨rfl, by rw [hfs, pipelineFS_servicesConsoleExe],
    by rw [hfs, pipelineFS_servicesNoconsoleExe],
    by rw [hfs, pipelineFS_servicesMarker],
    by rw [hfs, pipelineFS_homebrewDir],
    by rw [hfs, pipelineFS_stagingConsoleExe],
    by rw [hfs, pipelineFS_stagingNoconsoleExe]⟩

/-- Witness for the amended C6 at a concrete input. -/
theorem c6_amended_witness :
    (mainFn envBase ("v2.0.0") emptyFS).2.fs servicesNoconsoleExe =
      some (.file ("noconsole-exe-bytes")) ∧
    (mainFn envBase ("v2.0.0") emptyFS).2.fs
      ["root", "dist", "homebrew", "services", "plugin_loader.exe"] = none := by
  have h := c6_amended envBase ("v2.0.0") emptyFS
    (coreOk_envBase ("v2.0.0")) rfl rfl
  exact ⟨h.2.2.1, h.2.2.2.2.2.1⟩

set_option maxHeartbeats 2000000 in
/-- Counterexample to C7 as stated: on a concrete run in which the
companion-app path lookup fails (no registry entry) and the autostart
hook creation fails, the process still exits 0 — neither failure is
fatal, though both OS-integration steps were attempted. -/
theorem c7_counterexample :
    (mainFn { envBase with steamPath := none, autostartOk := false }
      ("v1.0") emptyFS).1 = 0 ∧
    Event.steamRegistryLookup ∈
      (mainFn { envBase with steamPath := none, autostartOk := false }
        ("v1.0") emptyFS).2.trace ∧
    Event.createAutostart ∈
      (mainFn { envBase with steamPath := none, autostartOk := false }
        ("v1.0") emptyFS).2.trace := by
  refine ⟨?_, ?_, ?_⟩ <;> decide

/-- C7 amended: of the four OS-integration steps, only flag-file
creation and shortcut creation failures are fatal (non-zero exit); a
failed companion-app path lookup skips the remaining companion-app steps
and the run continues, and a failed autostart hook creation is reported
through an ignored return value, the run still exiting 0. -/
theorem c7_amended (env : Env) (release : String) (fs0 : FS) (st : St) :
    (env.steamPath = none →
      setup_steam_config env st = ok (st.log .steamRegistryLookup)) ∧
    (CoreOk env release → env.steamExeExists = true → env.touchOk = false →
      ∀ sp, env.steamPath = some sp → (mainFn env release fs0).1 = 1) ∧
    (CoreOk env release → env.steamExeExists = true → env.touchOk = true →
      env.shortcutOk = false →
      ∀ sp, env.steamPath = some sp → (mainFn env release fs0).1 = 1) ∧
    (CoreOk env release → env.touchOk = true → env.shortcutOk = true →
      (mainFn env release fs0).1 = 0) := by
  refine ⟨?_, ?_, ?_, ?_⟩
  · intro hsp
    simp [setup_steam_config, hsp, ok]
  · intro h hse htf sp hsp
    unfold mainFn
    rw [runPipeline_head env release fs0 h]
    simp [setup_steam_config, hsp, hse, htf, bindR, raise, St.log]
  · intro h hse htt hsf sp hsp
    unfold mainFn
    rw [runPipeline_head env release fs0 h]
    simp [setup_steam_config, hsp, hse, htt, hsf, bindR, raise, St.log]
  · intro h htt hst
    have h2 : (runPipeline env (initSt release fs0)).2 = none :=
      (runPipeline_ok env release fs0 h htt hst).1
    rw [mainFn_of_ok env release fs0 h2]

/-- Witness for the amended C7 at a concrete input: a failing flag-file
creation makes the run exit 1. -/
theorem c7_amended_witness :
    (mainFn { envBase with touchOk := false } ("v1.0") emptyFS).1 = 1 := by
  have h := (c7_amended { envBase with touchOk := false } ("v1.0") emptyFS
    (initSt ("v1.0") emptyFS)).2.1
  refine h ?_ rfl rfl ("C:/Steam") rfl
  exact ⟨⟨rfl, ⟨"v18.18.0", rfl, by decide⟩, by decide, by decide, by decide⟩,
    ⟨by decide, by decide, by decide, by decide, by decide,
      ⟨"entry", by decide⟩, ⟨"aiohttp", by decide⟩⟩,
    rfl, rfl, rfl, rfl, rfl, rfl, rfl⟩

set_option maxHeartbeats 2000000 in
/-- C1 as stated fails on the code: on a concrete run whose console
packaging invocation fails, the detached variant is indeed not
attempted, but the exception is converted into an ignored `False`
return, deployment and OS integration still run, and the process exits
0 — not the fatal termination the claim requires. -/
theorem c1_code_bug_eval :
    (mainFn { envBase with pyi1Ok := false } ("v1.0") emptyFS).1 = 0 ∧
    Event.pyinstallerConsole ∈
      (mainFn { envBase with pyi1Ok := false } ("v1.0") emptyFS).2.trace ∧
    Event.pyinstallerDetached ∉
      (mainFn { envBase with pyi1Ok := false } ("v1.0") emptyFS).2.trace ∧
    Event.steamRegistryLookup ∈
      (mainFn { envBase with pyi1Ok := false } ("v1.0") emptyFS).2.trace ∧
    Event.createAutostart ∈
      (mainFn { envBase with pyi1Ok := false } ("v1.0") emptyFS).2.trace ∧
    (mainFn { envBase with pyi1Ok := false } ("v1.0") emptyFS).2.fs
      servicesConsoleExe = none := by
  refine ⟨?_, ?_, ?_, ?_, ?_, ?_⟩ <;> decide

/-!  The exit cleanup (C9). -/

theorem isPre_trans (p q r : Path) (h1 : isPre p q = true)
    (h2 : isPre q r = true) : isPre p r = true := by
  induction p generalizing q r with
  | nil => rfl
  | cons a as ih =>
    cases q with
    | nil => simp [isPre] at h1
    | cons b bs =>
      cases r with
      | nil => simp [isPre] at h2
      | cons c cs =>
        simp [isPre] at h1 h2 ⊢
        obtain ⟨hab, h1'⟩ := h1
        obtain ⟨hbc, h2'⟩ := h2
        exact ⟨hab.trans hbc, ih bs cs h1' h2'⟩

/-- A temp-removal step only erases cells or leaves them alone. -/
theorem cleanupTempStep_cases (fs : FS) (x : Path) (q : Path) :
    cleanupTempStep fs x q = fs q ∨ cleanupTempStep fs x q = none := by
  unfold cleanupTempStep
  cases hx : fs x with
  | none => left; rfl
  | some n =>
    cases n with
    | file c =>
      by_cases hq : q = x
      · right; simp [hq]
      · left; simp [hq]
    | dir =>
      unfold rmtree
      by_cases hq : isPre x q = true
      · right; simp [hq]
      · left; simp [hq]

theorem cleanupTempStep_none (fs : FS) (x : Path) (q : Path)
    (h : fs q = none) : cleanupTempStep fs x q = none := by
  rcases cleanupTempStep_cases fs x q with h1 | h1 <;> rw [h1]
  exact h

theorem cleanupTempFold_none (temps : List Path) (fs : FS) (q : Path)
    (h : fs q = none) : (temps.foldl cleanupTempStep fs) q = none := by
  induction temps generalizing fs with
  | nil => exact h
  | cons x xs ih =>
    exact ih (cleanupTempStep fs x) (cleanupTempStep_none fs x q h)

theorem cleanupTempFold_cases (temps : List Path) (fs : FS) (q : Path) :
    (temps.foldl cleanupTempStep fs) q = fs q ∨
    (temps.foldl cleanupTempStep fs) q = none := by
  induction temps generalizing fs with
  | nil => left; rfl
  | cons x xs ih =>
    rcases cleanupTempStep_cases fs x q with h1 | h1
    · rcases ih (cleanupTempStep fs x) with h2 | h2
      · left; rw [List.foldl_cons] at *; rw [h2, h1]
      · right; rw [List.foldl_cons] at *; exact h2
    · right
      rw [List.foldl_cons]
      exact cleanupTempFold_none xs _ q h1

theorem cleanupTempFold_mem (temps : List Path) (fs : FS) (p : Path)
    (h : p ∈ temps) : (temps.foldl cleanupTempStep fs) p = none := by
  induction temps generalizing fs with
  | nil => simp at h
  | cons x xs ih =>
    rw [List.foldl_cons]
    rcases List.mem_cons.mp h with rfl | hmem
    · apply cleanupTempFold_none
      unfold cleanupTempStep
      cases hx : fs p with
      | none => exact hx
      | some n =>
        cases n with
        | file c => simp
        | dir => simp [rmtree, isPre_refl]
    · exact ih (cleanupTempStep fs x) hmem

theorem rmtree_none (p : Path) (fs : FS) (q : Path) (h : fs q = none) :
    rmtree p fs q = none := by
  unfold rmtree
  split <;> simp [h]

theorem specStep_none (fs : FS) (q : Path) (h : fs q = none) :
    (if isRootSpecFile fs q then none else fs q) = none := by
  split <;> simp [h]

/-- Everything under the root build tree is gone after cleanup. -/
theorem cleanup_fs_build (temps : List Path) (fs : FS) (q : Path)
    (h : isPre ["root", "build"] q = true) : cleanup_fs temps fs q = none := by
  unfold cleanup_fs
  apply specStep_none
  apply rmtree_none
  simp [rmtree, h]

/-- Everything under the root dist tree is gone after cleanup. -/
theorem cleanup_fs_dist (temps : List Path) (fs : FS) (q : Path)
    (h : isPre ["root", "dist"] q = true) : cleanup_fs temps fs q = none := by
  unfold cleanup_fs
  apply specStep_none
  simp [rmtree, h]

/-- Every registered temporary artifact is gone after cleanup. -/
theorem cleanup_fs_temp (temps : List Path) (fs : FS) (p : Path)
    (h : p ∈ temps) : cleanup_fs temps fs p = none := by
  unfold cleanup_fs
  apply specStep_none
  apply rmtree_none
  apply rmtree_none
  exact cleanupTempFold_mem temps fs p h

/-- Every root-level spec file is gone after cleanup. -/
theorem cleanup_fs_spec (temps : List Path) (fs : FS) (s : String) (c : String)
    (hend : strEndsWith s (".spec") = true)
    (hfile : fs ["root", s] = some (.file c)) :
    cleanup_fs temps fs ["root", s] = none := by
  unfold cleanup_fs
  rcases cleanupTempFold_cases temps fs ["root", s] with h1 | h1
  · by_cases hb : isPre ["root", "build"] ["root", s] = true
    · apply specStep_none
      apply rmtree_none
      simp [rmtree, hb]
    · by_cases hd : isPre ["root", "dist"] ["root", s] = true
      · apply specStep_none
        simp [rmtree, hd]
      · have hmid : rmtree ["root", "dist"] (rmtree ["root", "build"]
            (temps.foldl cleanupTempStep fs)) ["root", s] = some (.file c) := by
          simp [rmtree, hb, hd, h1, hfile]
        simp [isRootSpecFile, hmid, hend]
  · apply specStep_none
    apply rmtree_none
    apply rmtree_none
    exact h1

/-- Cleanup never touches the per-user tree when the registered
temporaries are the two frontend artifacts. -/
theorem cleanup_fs_home (temps : List Path) (fs : FS) (xs : List String)
    (h : ∀ p ∈ temps, p = frontendMarker ∨ p = frontendBatchFile) :
    cleanup_fs temps fs ("home" :: xs) = fs ("home" :: xs) := by
  unfold cleanup_fs
  have hfold : (temps.foldl cleanupTempStep fs) ("home" :: xs) =
      fs ("home" :: xs) := by
    induction temps generalizing fs with
    | nil => rfl
    | cons x ts ih =>
      rw [List.foldl_cons]
      rw [ih (cleanupTempStep fs x) (fun p hp => h p (List.mem_cons_of_mem x hp))]
      unfold cleanupTempStep
      cases hx : fs x with
      | none => rfl
      | some n =>
        rcases h x (List.mem_cons_self x ts) with rfl | rfl <;>
          cases n <;>
            simp [rmtree, isPre, frontendMarker, frontendBatchFile]
  have hrm1 : isPre ["root", "build"] ("home" :: xs) = false := by
    simp [isPre]
  have hrm2 : isPre ["root", "dist"] ("home" :: xs) = false := by
    simp [isPre]
  have hspec : isRootSpecFile (rmtree ["root", "dist"] (rmtree ["root", "build"]
      (temps.foldl cleanupTempStep fs))) ("home" :: xs) = false := by
    rcases xs with - | ⟨a, - | ⟨b, rest⟩⟩ <;> simp [isRootSpecFile]
  simp [hspec, rmtree, hrm1, hrm2, hfold]

/-!  Temporary-artifact registrations of the pipeline. -/

/-- The temporaries a state can carry: only the two frontend artifacts
are ever registered. -/
def TempsOk (st : St) : Prop :=
  ∀ p ∈ st.temp_files, p = frontendMarker ∨ p = frontendBatchFile

theorem bindR_temps (r : Res) (f : St → Res) (hr : TempsOk r.1)
    (hf : ∀ st, TempsOk st → TempsOk (f st).1) : TempsOk (bindR r f).1 := by
  unfold bindR
  cases h : r.2
  · exact hf r.1 hr
  · exact hr

theorem install_nodejs_temps (env : Env) (st : St) (h : TempsOk st) :
    TempsOk (install_nodejs env st).1 := by
  simp only [install_nodejs, bindR, ok, raise, St.log]
  repeat' split
  all_goals exact h

theorem check_dependencies_node_temps (env : Env) (st : St) (h : TempsOk st) :
    TempsOk (check_dependencies_node env st).1 := by
  simp only [check_dependencies_node, ok, St.log]
  repeat' split
  all_goals first
    | exact install_nodejs_temps env _ h
    | exact h

theorem check_dependencies_pnpm_temps (env : Env) (st : St) (h : TempsOk st) :
    TempsOk (check_dependencies_pnpm env st).1 := by
  simp only [check_dependencies_pnpm, ok, raise, St.log]
  repeat' split
  all_goals exact h

theorem check_dependencies_git_temps (env : Env) (st : St) (h : TempsOk st) :
    TempsOk (check_dependencies_git env st).1 := by
  simp only [check_dependencies_git, ok, raise, St.log]
  repeat' split
  all_goals exact h

theorem clone_repository_temps (env : Env) (st : St) (h : TempsOk st) :
    TempsOk (clone_repository env st).1 := by
  simp only [clone_repository, ok, raise, St.log]
  repeat' split
  all_goals exact h

theorem build_frontend_temps (env : Env) (st : St) (h : TempsOk st) :
    TempsOk (build_frontend env st).1 := by
  simp only [build_frontend, ok, raise, St.log]
  split
  · exact h
  · split <;>
    · intro p hp
      simp only [List.mem_append, List.mem_singleton] at hp
      rcases hp with (hp | rfl) | rfl
      · exact h p hp
      · left; rfl
      · right; rfl

theorem prepare_backend_temps (st : St) (h : TempsOk st) :
    TempsOk (prepare_backend st).1 := by
  simp only [prepare_backend, ok, raise]
  repeat' split
  all_goals exact h

theorem install_requirements_temps (env : Env) (st : St) (h : TempsOk st) :
    TempsOk (install_requirements env st).1 := by
  simp only [install_requirements, ok, raise, St.log]
  repeat' split
  all_goals exact h

theorem build_executables_temps (env : Env) (st : St) (h : TempsOk st) :
    TempsOk (build_executables env st).1 := by
  simp only [build_executables, St.log]
  repeat' split
  all_goals exact h

theorem setup_steam_config_temps (env : Env) (st : St) (h : TempsOk st) :
    TempsOk (setup_steam_config env st).1 := by
  simp only [setup_steam_config, ok, raise, St.log]
  repeat' split
  all_goals exact h

/-- Along every control path of the pipeline, only the two frontend
artifacts ever enter the temporary-artifact registry. -/
theorem runPipeline_temps (env : Env) (st : St) (h : TempsOk st) :
    TempsOk (runPipeline env st).1 := by
  unfold runPipeline
  apply bindR_temps
  · unfold check_python_version
    split <;> exact h
  intro st1 h1
  apply bindR_temps
  · unfold check_dependencies
    apply bindR_temps
    · exact check_dependencies_node_temps env st1 h1
    intro st2 h2
    apply bindR_temps
    · exact check_dependencies_pnpm_temps env st2 h2
    intro st3 h3
    exact check_dependencies_git_temps env st3 h3
  intro st2 h2
  apply bindR_temps
  · exact h2
  intro st3 h3
  apply bindR_temps
  · exact clone_repository_temps env st3 h3
  intro st4 h4
  apply bindR_temps
  · exact h4
  intro st5 h5
  apply bindR_temps
  · exact build_frontend_temps env st5 h5
  intro st6 h6
  apply bindR_temps
  · exact prepare_backend_temps st6 h6
  intro st7 h7
  apply bindR_temps
  · exact install_requirements_temps env st7 h7
  intro st8 h8
  have hbe := build_executables_temps env st8 h8
  rcases hx : build_executables env st8 with ⟨stb, ob⟩
  rw [hx] at hbe
  simp only [hx]
  cases ob with
  | exn msg => exact hbe
  | ret b =>
    apply bindR_temps
    · unfold copy_to_homebrew
      exact hbe
    intro st9 h9
    apply bindR_temps
    · exact setup_steam_config_temps env st9 h9
    intro st10 h10
    rw [setup_autostart_fields]
    exact h10

/-- Whatever the run's outcome, its final temporary registry holds at
most the two frontend artifacts. -/
theorem mainFn_temps (env : Env) (release : String) (fs0 : FS) :
    TempsOk (mainFn env release fs0).2 := by
  have h := runPipeline_temps env (initSt release fs0)
    (by intro p hp; simp [initSt] at hp)
  unfold mainFn
  rcases hrp : runPipeline env (initSt release fs0) with ⟨st1, e1⟩
  rw [hrp] at h
  cases e1 <;> exact h

/-- C9: on every exit path — success or failure — the registered exit
cleanup removes the root-level build and dist trees (hence the whole
local staging tree under dist/homebrew), every root-level spec file and
every registered temporary artifact, and leaves the per-user tree
exactly as the run ended: only the per-user runtime tree survives. -/
theorem c9_cleanup_frame (env : Env) (release : String) (fs0 : FS) :
    (∀ q : Path, isPre ["root", "build"] q = true →
      (processExit env release fs0).2.fs q = none) ∧
    (∀ q : Path, isPre ["root", "dist"] q = true →
      (processExit env release fs0).2.fs q = none) ∧
    (∀ q : Path, isPre homebrewDir q = true →
      (processExit env release fs0).2.fs q = none) ∧
    (∀ s c, strEndsWith s (".spec") = true →
      (mainFn env release fs0).2.fs ["root", s] = some (.file c) →
      (processExit env release fs0).2.fs ["root", s] = none) ∧
    (∀ p, p ∈ (mainFn env release fs0).2.temp_files →
      (processExit env release fs0).2.fs p = none) ∧
    (∀ xs : List String,
      (processExit env release fs0).2.fs ("home" :: xs) =
        (mainFn env release fs0).2.fs ("home" :: xs)) := by
  refine ⟨?_, ?_, ?_, ?_, ?_, ?_⟩
  · intro q hq
    exact cleanup_fs_build _ _ q hq
  · intro q hq
    exact cleanup_fs_dist _ _ q hq
  · intro q hq
    exact cleanup_fs_dist _ _ q
      (isPre_trans ["root", "dist"] homebrewDir q (by decide) hq)
  · intro s c hend hfile
    exact cleanup_fs_spec _ _ s c hend hfile
  · intro p hp
    exact cleanup_fs_temp _ _ p hp
  · intro xs
    exact cleanup_fs_home _ _ xs (mainFn_temps env release fs0)

/-- Witness for C9 at a concrete input: after the process exit of a
successful run, the staging mirror root is gone while the per-user
services marker survives. -/
theorem c9_cleanup_frame_witness :
    (processExit envBase ("v1.0") emptyFS).2.fs homebrewDir = none ∧
    (processExit envBase ("v1.0") emptyFS).2.fs servicesMarker =
      (mainFn envBase ("v1.0") emptyFS).2.fs servicesMarker := by
  constructor
  · exact (c9_cleanup_frame envBase ("v1.0") emptyFS).2.2.1 homebrewDir
      (by decide)
  · exact (c9_cleanup_frame envBase ("v1.0") emptyFS).2.2.2.2.2
      ["homebrew", "services", ".loader.version"]

end Decky
